import Mathlib

/-!
Shallow embedding of the PandasSchema validation core
(`src/pandas_schema/validation.py` and `src/pandas_schema/validation_warning.py`).

Cells of a column are modelled by `PyValue` (the values the claims exercise:
strings and integers).  A pandas `Series` is a named, indexed list of cells;
the index keys are the row labels.  A mask is a `List Bool` aligned by
position with the series.  A raising `validate` returns `none`; `get_errors`
returns `Except PyException`, since it can either propagate the coercion
error raised inside `validate` or raise itself: the repository is a
mechanical Python-2 conversion that renamed the pandas `.str` accessor to
`.unicode`, so the expression `series.unicode.len()` on its `allow_empty`
branch (line 87) raises `AttributeError` — a pandas `Series` has no
`unicode` accessor — instead of computing string lengths.
-/

namespace PandasSchema

/-- Scalar cell values as they appear in the claims: strings and integers. -/
inductive PyValue where
  | str (s : String)
  | int (n : Int)
deriving DecidableEq, Repr

/-- The Python exceptions the embedded code can raise: `AttributeError`
from `series.unicode` (no such pandas accessor), and the error raised by
`pd.to_numeric` on a non-coercible value. -/
inductive PyException where
  | AttributeError
  | ValueError
deriving DecidableEq, Repr

instance {ε α : Type} [DecidableEq ε] [DecidableEq α] : DecidableEq (Except ε α) :=
  fun a b =>
  match a, b with
  | .error e, .error f =>
    if h : e = f then .isTrue (h ▸ rfl) else .isFalse fun hc => h (Except.error.inj hc)
  | .error _, .ok _ => .isFalse fun hc => Except.noConfusion hc
  | .ok _, .error _ => .isFalse fun hc => Except.noConfusion hc
  | .ok x, .ok y =>
    if h : x = y then .isTrue (h ▸ rfl) else .isFalse fun hc => h (Except.ok.inj hc)

/-- Python object passed to `CanCallValidation` / `CanConvertValidation`:
either a callable (a function of one argument that may raise, raising being
modelled by `Except.error ()`), or a non-callable object.  `name` stands for
the object's display form used when it is interpolated into a message. -/
inductive PyObj where
  | func (name : String) (f : PyValue → Except Unit PyValue)
  | plain (name : String)

/-- Display form of the object (Python `'{}'.format(obj)`), kept abstract as
the stored name. -/
def PyObj.reprStr : PyObj → String
  | .func n _ => n
  | .plain n => n

/-- Calling the object on a value: a non-callable raises `TypeError`
(modelled as `Except.error ()`); a callable runs the underlying function. -/
def PyObj.call : PyObj → PyValue → Except Unit PyValue
  | .func _ f, v => f v
  | .plain _, _ => .error ()

/-- A pandas Series: the column name plus the list of (row key, cell value)
pairs, in order.  Row keys are the series index. -/
structure Series where
  name : String
  data : List (Nat × PyValue)

/-- The cell values of the series, in order. -/
def Series.values (s : Series) : List PyValue := s.data.map Prod.snd

/-- Modelled from the spec: the `Column` object of the repository's column
module is not under `src/`; per spec section 3 it carries the policy flag
`allow_empty`, the only column attribute `get_errors` reads. -/
structure Column where
  allow_empty : Bool

/-- Embeds `validation_warning.py`: one reported failure with provenance.
`value`, `row` and `column` default to `None`; `message` may be Python
`None` when a rule has neither a custom nor a default message. -/
structure ValidationWarning where
  message : Option String
  value : Option PyValue := none
  row : Option Nat := none
  column : Option String := none
deriving DecidableEq, Repr

/-- The boolean operator object handed to `_CombinedValidation`
(`operator.and_` for `&`, `operator.or_` for `|`). -/
inductive Op where
  | and_
  | or_
deriving DecidableEq, Repr

/-- Elementwise application of the operator to two mask entries. -/
def Op.apply : Op → Bool → Bool → Bool
  | .and_, a, b => a && b
  | .or_, a, b => a || b

/-- Python `'{}'.format(op)` for the operator function object: its repr,
`<built-in function and_>` or `<built-in function or_>`. -/
def Op.pyFormat : Op → String
  | .and_ => "<built-in function and_>"
  | .or_ => "<built-in function or_>"

/-- A numeric bound of `InRangeValidation`: an integer, or one of the float
infinities used as the defaults (`min = -float('inf')`, `max = float('inf')`). -/
inductive ExtInt where
  | negInf
  | fin (n : Int)
  | posInf
deriving DecidableEq, Repr

/-- Embeds `series >= self.min` for one element. -/
def ExtInt.leB : ExtInt → Int → Bool
  | .negInf, _ => true
  | .posInf, _ => false
  | .fin m, n => m ≤ n

/-- Embeds `series < self.max` for one element. -/
def ExtInt.gtB : ExtInt → Int → Bool
  | .negInf, _ => false
  | .posInf, _ => true
  | .fin m, n => n < m

/-- Python `'{}'.format(bound)`: `str` of an int, or `-inf` / `inf`. -/
def ExtInt.pyFormat : ExtInt → String
  | .negInf => "-inf"
  | .posInf => "inf"
  | .fin n => toString n

/-- Accumulates the decimal value of a digit run; fails on the first
non-digit character. -/
def parseNatAux : List Char → Nat → Option Nat
  | [], acc => some acc
  | c :: cs, acc =>
    if c.isDigit then parseNatAux cs (acc * 10 + (c.toNat - 48)) else none

/-- Parses an optionally negated run of decimal digits. -/
def parseIntChars : List Char → Option Int
  | [] => none
  | '-' :: cs => if cs.isEmpty then none else (parseNatAux cs 0).map (fun n => -(n : Int))
  | cs => (parseNatAux cs 0).map (fun n => (n : Int))

/-- Embeds `pd.to_numeric` on one element: an int coerces to itself, a string
coerces iff it parses as a numeric literal; a failed coercion raises
(`none`). -/
def pd_to_numeric : PyValue → Option Int
  | .int n => some n
  | .str s => parseIntChars s.data

/-- Elementwise coercion of a whole series, raising (`none`) as soon as one
element fails to coerce, as `pd.to_numeric(series)` does. -/
def to_numeric_list : List PyValue → Option (List Int)
  | [] => some []
  | v :: vs =>
    match pd_to_numeric v, to_numeric_list vs with
    | some n, some ns => some (n :: ns)
    | _, _ => none

/-- The mask-producing validations of `validation.py` that the claims are
about, one constructor per class; each carries the `message` kwarg of its
constructor (`none` when absent).  `_CombinedValidation` calls
`super().__init__()` with no kwargs, so it has no custom-message field, and
`CustomElementValidation` requires its `message` argument. -/
inductive SeriesValidation where
  | InverseValidation (negated : SeriesValidation) (custom : Option String)
  | CombinedValidation (v_a v_b : SeriesValidation) (op : Op)
  | CustomElementValidation (validation : PyValue → Bool) (msg : String)
  | InRangeValidation (min max : ExtInt) (custom : Option String)
  | CanCallValidation (callable : PyObj) (custom : Option String)
  | CanConvertValidation (callable : PyObj) (custom : Option String)

/-- The stored `_custom_message` of each validation
(`kwargs.get('message')`). -/
def SeriesValidation.custom_message : SeriesValidation → Option String
  | .InverseValidation _ c => c
  | .CombinedValidation _ _ _ => none
  | .CustomElementValidation _ m => some m
  | .InRangeValidation _ _ c => c
  | .CanCallValidation _ c => c
  | .CanConvertValidation _ c => c

/-- Python truthiness selection `a or b` for optional strings: `a` when it is
a non-empty string, otherwise `b`. -/
def pyOr (a b : Option String) : Option String :=
  match a with
  | some s => if s = "" then b else some s
  | none => b

/-- Python `'{}'.format(x)` where `x` is an optional string: `None` renders
as the string `None`. -/
def fmtOpt : Option String → String
  | some s => s
  | none => "None"

/-- The `default_message` property of each class.  `CustomElementValidation`
inherits the abstract property, whose getter body is only a docstring and so
returns Python `None`.  For the combinators the sub-validation's `message`
(custom or default) is inlined. -/
def SeriesValidation.default_message : SeriesValidation → Option String
  | .InverseValidation r _ =>
      some (fmtOpt (pyOr r.custom_message r.default_message) ++ " <negated>")
  | .CombinedValidation a b op =>
      some ("(" ++ fmtOpt (pyOr a.custom_message a.default_message) ++ ") " ++
        op.pyFormat ++ " (" ++ fmtOpt (pyOr b.custom_message b.default_message) ++ ")")
  | .CustomElementValidation _ _ => none
  | .InRangeValidation mn mx _ =>
      some ("was not in the range [" ++ mn.pyFormat ++ ", " ++ mx.pyFormat ++ ")")
  | .CanCallValidation obj _ =>
      some ("raised an exception when the callable " ++ obj.reprStr ++ " was called on it")
  | .CanConvertValidation obj _ =>
      some ("cannot be converted to type " ++ obj.reprStr)

/-- The `message` property: `self._custom_message or self.default_message`. -/
def SeriesValidation.message (v : SeriesValidation) : Option String :=
  pyOr v.custom_message v.default_message

/-- Embeds `CanCallValidation.can_call`: call the object on the value,
catching any exception; `True` iff no exception was raised. -/
def can_call (obj : PyObj) (var : PyValue) : Bool :=
  match obj.call var with
  | .ok _ => true
  | .error _ => false

/-- The `validate` method of each class, producing the pass/fail mask aligned
by position with the series, or `none` when evaluation raises
(only `InRangeValidation` can raise, through `pd.to_numeric`). -/
def SeriesValidation.validate : SeriesValidation → Series → Option (List Bool)
  | .InverseValidation r _, s => (r.validate s).map (List.map (!·))
  | .CombinedValidation a b op, s =>
      match a.validate s, b.validate s with
      | some ma, some mb => some (List.zipWith op.apply ma mb)
      | _, _ => none
  | .CustomElementValidation f _, s => some (s.values.map f)
  | .InRangeValidation mn mx _, s =>
      (to_numeric_list s.values).map (fun ns => ns.map (fun n => mn.leB n && mx.gtB n))
  | .CanCallValidation obj _, s => some (s.values.map (can_call obj))
  | .CanConvertValidation obj _, s => some (s.values.map (can_call obj))

/-- Embeds `SeriesValidation.get_errors`.  Line 84 negates the mask (a
raising `validate` propagates its error out first).  Line 87 then evaluates
`series.unicode.len()` when the column allows empties — but a pandas
`Series` has no `unicode` accessor (a conversion artifact of
`series.str`), so that branch raises `AttributeError` instead of exempting
empty cells.  With `allow_empty = false` one warning is emitted per failing
row, carrying the row key, the cell value and the column name. -/
def SeriesValidation.get_errors (v : SeriesValidation) (series : Series)
    (column : Column) : Except PyException (List ValidationWarning) :=
  match v.validate series with
  | none => .error .ValueError
  | some mask =>
    let simple_validation := mask.map (!·)
    if column.allow_empty then
      .error .AttributeError
    else
      .ok (((series.data.zip simple_validation).filter (fun p => p.2)).map (fun p =>
        { message := v.message
          value := some p.1.2
          row := some p.1.1
          column := some series.name }))

/-- The error type raised for bad constructor arguments. -/
structure PanSchArgumentError where
  msg : String
deriving DecidableEq, Repr

/-- Python `callable(type)` as written on line 247 of `validation.py`: the
argument of `callable` there is the BUILTIN `type` object (not the `func`
parameter), and the builtin `type` is callable. -/
def callable_builtin_type : Bool := true

/-- Embeds `CanCallValidation.__init__`: store the argument when
`callable(type)` holds, otherwise raise `PanSchArgumentError`. -/
def CanCallValidation.init (func : PyObj) (custom : Option String) :
    Except PanSchArgumentError SeriesValidation :=
  if callable_builtin_type then
    .ok (.CanCallValidation func custom)
  else
    .error ⟨"The object passed to CanCallValidation is not callable!"⟩

/-! Concrete columns and rules used by the examples the spec names. -/

/-- The column `[-1, 5, 10, "x"]` of the spec's Range data-error example. -/
def range_error_series : Series :=
  ⟨"c", [(0, .int (-1)), (1, .int 5), (2, .int 10), (3, .str "x")]⟩

/-- The column `[5, 15, -3]` of the spec's Range example. -/
def range_example_series : Series :=
  ⟨"c", [(0, .int 5), (1, .int 15), (2, .int (-3))]⟩

/-- A callable raising exactly on the input `3`. -/
def raise_on_three : PyObj :=
  .func "f" (fun v => if v = .int 3 then .error () else .ok v)

/-- The column `[1, 2, 3]` of the spec's CanCall example. -/
def one_two_three_series : Series :=
  ⟨"c", [(0, .int 1), (1, .int 2), (2, .int 3)]⟩

/-- A rule whose mask marks every element as failing. -/
def fails_all : SeriesValidation :=
  .CustomElementValidation (fun _ => false) "bad"

/-- A column holding an empty string at row 0 and `a` at row 1. -/
def empty_mix_series : Series :=
  ⟨"col", [(0, .str ""), (1, .str "a")]⟩

/-! Helper lemmas shared by the claim theorems. -/

theorem to_numeric_list_length (l : List PyValue) (ns : List Int)
    (h : to_numeric_list l = some ns) : ns.length = l.length := by
  induction l generalizing ns with
  | nil => simp [to_numeric_list] at h; simp [← h]
  | cons v vs ih =>
    simp only [to_numeric_list] at h
    cases hv : pd_to_numeric v with
    | none => rw [hv] at h; exact absurd h (by simp)
    | some n =>
      rw [hv] at h
      cases hvs : to_numeric_list vs with
      | none => rw [hvs] at h; exact absurd h (by simp)
      | some ns2 =>
        rw [hvs] at h
        cases h
        simp [ih ns2 hvs]

theorem to_numeric_list_none (l : List PyValue) (v : PyValue)
    (hv : v ∈ l) (hn : pd_to_numeric v = none) : to_numeric_list l = none := by
  induction l with
  | nil => cases hv
  | cons a l ih =>
    rcases List.mem_cons.mp hv with h | h
    · subst h; simp [to_numeric_list, hn]
    · simp only [to_numeric_list, ih h]
      cases pd_to_numeric a <;> rfl

theorem validate_length (v : SeriesValidation) (s : Series) (mask : List Bool)
    (h : v.validate s = some mask) : mask.length = s.values.length := by
  induction v generalizing mask with
  | InverseValidation r c ih =>
    simp only [SeriesValidation.validate] at h
    cases hr : r.validate s with
    | none => rw [hr] at h; exact absurd h (by simp)
    | some m0 =>
      rw [hr] at h
      cases h
      simp [ih m0 hr]
  | CombinedValidation a b op iha ihb =>
    simp only [SeriesValidation.validate] at h
    cases ha : a.validate s with
    | none => rw [ha] at h; exact absurd h (by simp)
    | some ma =>
      cases hb : b.validate s with
      | none => rw [ha, hb] at h; exact absurd h (by simp)
      | some mb =>
        rw [ha, hb] at h
        cases h
        simp [List.length_zipWith, iha ma ha, ihb mb hb]
  | CustomElementValidation f m =>
    simp only [SeriesValidation.validate] at h
    cases h
    simp
  | InRangeValidation mn mx c =>
    simp only [SeriesValidation.validate] at h
    cases hns : to_numeric_list s.values with
    | none => rw [hns] at h; exact absurd h (by simp)
    | some ns =>
      rw [hns] at h
      cases h
      simp [to_numeric_list_length s.values ns hns]
  | CanCallValidation obj c =>
    simp only [SeriesValidation.validate] at h
    cases h
    simp
  | CanConvertValidation obj c =>
    simp only [SeriesValidation.validate] at h
    cases h
    simp

/-- C6: for every mask-producing rule, including combinator-built rules, and
every series on which `validate` succeeds, the returned mask has the same
length as the series. -/
theorem mask_length_eq_column_length (v : SeriesValidation) (s : Series)
    (mask : List Bool) (h : v.validate s = some mask) :
    mask.length = s.data.length := by
  have hl := validate_length v s mask h
  simpa [Series.values] using hl

/-- Witness for C6 at the inverted conjunction of a Range rule and an
element rule, on the `[5, 15, -3]` column. -/
theorem mask_length_eq_column_length_witness :
    ([false, true, true] : List Bool).length = range_example_series.data.length :=
  mask_length_eq_column_length
    (.InverseValidation
      (.CombinedValidation (.InRangeValidation (.fin 0) (.fin 10) none)
        (.CustomElementValidation (fun _ => true) "m") .and_) none)
    range_example_series [false, true, true] (by decide)

/-- C7: a column containing a value that `pd.to_numeric` cannot coerce makes
`InRangeValidation.validate`, and hence `get_errors` on any column policy,
raise the coercion error rather than produce per-row warnings (line 84 runs
`validate` before the `allow_empty` branch is reached). -/
theorem inrange_noncoercible_raises (mn mx : ExtInt) (c : Option String)
    (s : Series) (col : Column) (v : PyValue)
    (hv : v ∈ s.values) (hn : pd_to_numeric v = none) :
    (SeriesValidation.InRangeValidation mn mx c).validate s = none ∧
    (SeriesValidation.InRangeValidation mn mx c).get_errors s col =
      .error .ValueError := by
  have hval : (SeriesValidation.InRangeValidation mn mx c).validate s = none := by
    simp [SeriesValidation.validate, to_numeric_list_none s.values v hv hn]
  refine ⟨hval, ?_⟩
  rw [SeriesValidation.get_errors, hval]

/-- Witness for C7: `Range(min=0, max=10)` on `[-1, 5, 10, "x"]` with
`allow_empty = false` raises instead of returning warnings. -/
theorem inrange_noncoercible_raises_witness :
    (SeriesValidation.InRangeValidation (.fin 0) (.fin 10) none).validate
        range_error_series = none ∧
    (SeriesValidation.InRangeValidation (.fin 0) (.fin 10) none).get_errors
        range_error_series ⟨false⟩ = .error .ValueError :=
  inrange_noncoercible_raises (.fin 0) (.fin 10) none range_error_series ⟨false⟩
    (.str "x") (by decide) (by decide)

/-- C2 (refuted): `CanCallValidation.__init__` tests `callable(type)` — the
builtin `type`, which is always callable — instead of `callable(func)`, so
construction succeeds and stores the argument for EVERY argument, including
non-callables such as `42`; the `PanSchArgumentError` branch is dead code. -/
theorem canCallValidation_init_never_raises :
    (∀ (func : PyObj) (custom : Option String),
      CanCallValidation.init func custom =
        Except.ok (.CanCallValidation func custom)) ∧
    CanCallValidation.init (.plain "42") none =
      Except.ok (.CanCallValidation (.plain "42") none) :=
  ⟨fun _ _ => rfl, rfl⟩

theorem get_errors_noEmpty_eq (v : SeriesValidation) (s : Series)
    (mask : List Bool) (hv : v.validate s = some mask) :
    v.get_errors s ⟨false⟩ =
      .ok (((s.data.zip (mask.map (!·))).filter fun p => p.2).map fun p =>
        ⟨v.message, some p.1.2, some p.1.1, some s.name⟩) := by
  rw [SeriesValidation.get_errors, hv]
  rfl

/-- C1 (refuted): whenever `validate` itself succeeds, the
`allow_empty = true` path of `get_errors` raises `AttributeError` at the
`series.unicode.len()` expression instead of exempting empty cells and
returning the other warnings; with `allow_empty = false` every failing row —
empty-string rows included — yields its warning like any other. -/
theorem allow_empty_path_raises (v : SeriesValidation) (s : Series)
    (ws : List ValidationWarning) (mask : List Bool) (i : Nat) (p : Nat × PyValue)
    (hv : v.validate s = some mask) :
    v.get_errors s ⟨true⟩ = .error .AttributeError ∧
    (v.get_errors s ⟨false⟩ = .ok ws →
      s.data[i]? = some p → mask[i]? = some false →
      (⟨v.message, some p.2, some p.1, some s.name⟩ : ValidationWarning) ∈ ws) := by
  constructor
  · rw [SeriesValidation.get_errors, hv]
    rfl
  · intro h hp hm
    rw [get_errors_noEmpty_eq v s mask hv] at h
    replace h := Except.ok.inj h
    subst h
    refine List.mem_map.mpr ⟨(p, true), ?_, rfl⟩
    refine List.mem_filter.mpr ⟨?_, rfl⟩
    refine List.getElem?_mem (n := i) ?_
    rw [List.getElem?_zip_eq_some]
    refine ⟨hp, ?_⟩
    show (mask.map (!·))[i]? = some true
    rw [List.getElem?_map, hm]
    rfl

/-- Witness for C1's refutation: a rule failing every element of the column
`["", "a"]`; with `allow_empty = true` `get_errors` raises `AttributeError`,
and with `allow_empty = false` the empty-string row 0 is reported like any
other failing row. -/
theorem allow_empty_path_raises_witness :
    fails_all.get_errors empty_mix_series ⟨true⟩ =
        Except.error PyException.AttributeError ∧
    (⟨some "bad", some (.str ""), some 0, some "col"⟩ : ValidationWarning) ∈
      ([⟨some "bad", some (.str ""), some 0, some "col"⟩,
        ⟨some "bad", some (.str "a"), some 1, some "col"⟩] : List ValidationWarning) :=
  ⟨(allow_empty_path_raises fails_all empty_mix_series []
      [false, false] 0 (0, .str "") (by decide)).1,
   (allow_empty_path_raises fails_all empty_mix_series
      [⟨some "bad", some (.str ""), some 0, some "col"⟩,
       ⟨some "bad", some (.str "a"), some 1, some "col"⟩] [false, false] 0
      (0, .str "") (by decide)).2 (by decide) (by decide) (by decide)⟩

/-- C4: negation validates to the position-wise boolean negation of the
inner rule's mask, preserving length and row alignment. -/
theorem inverse_validate_elementwise_not (r : SeriesValidation) (c : Option String)
    (s : Series) (mask : List Bool) (i : Nat) (b : Bool)
    (h : r.validate s = some mask) (hi : mask[i]? = some b) :
    (SeriesValidation.InverseValidation r c).validate s = some (mask.map (!·)) ∧
    (mask.map (!·)).length = mask.length ∧
    (mask.map (!·))[i]? = some (!b) := by
  refine ⟨?_, by simp, ?_⟩
  · simp [SeriesValidation.validate, h]
  · rw [List.getElem?_map, hi]
    rfl

/-- Witness for C4 at a rule failing both rows of the `["", "a"]` column. -/
theorem inverse_validate_elementwise_not_witness :
    (SeriesValidation.InverseValidation fails_all none).validate empty_mix_series =
        some (([false, false] : List Bool).map (!·)) ∧
    (([false, false] : List Bool).map (!·)).length = ([false, false] : List Bool).length ∧
    (([false, false] : List Bool).map (!·))[1]? = some (!false) :=
  inverse_validate_elementwise_not fails_all none empty_mix_series [false, false] 1
    false (by decide) (by decide)

/-- C5: a combinator built with `&` validates to the position-wise AND of the
two branch masks, one built with `|` to their position-wise OR, and both
branch masks are computed. -/
theorem combined_validate_elementwise (a b : SeriesValidation) (s : Series)
    (ma mb : List Bool) (i : Nat) (x y : Bool)
    (ha : a.validate s = some ma) (hb : b.validate s = some mb)
    (hx : ma[i]? = some x) (hy : mb[i]? = some y) :
    (SeriesValidation.CombinedValidation a b .and_).validate s =
        some (List.zipWith (fun p q => p && q) ma mb) ∧
    (List.zipWith (fun p q => p && q) ma mb)[i]? = some (x && y) ∧
    (SeriesValidation.CombinedValidation a b .or_).validate s =
        some (List.zipWith (fun p q => p || q) ma mb) ∧
    (List.zipWith (fun p q => p || q) ma mb)[i]? = some (x || y) := by
  refine ⟨?_, ?_, ?_, ?_⟩
  · simp only [SeriesValidation.validate, ha, hb]
    rfl
  · exact List.getElem?_zipWith_eq_some.mpr ⟨x, y, hx, hy, rfl⟩
  · simp only [SeriesValidation.validate, ha, hb]
    rfl
  · exact List.getElem?_zipWith_eq_some.mpr ⟨x, y, hx, hy, rfl⟩

/-- Witness for C5 at a Range rule and an always-failing rule on `[5, 15, -3]`. -/
theorem combined_validate_elementwise_witness :
    (SeriesValidation.CombinedValidation (.InRangeValidation (.fin 0) (.fin 10) none)
        fails_all .and_).validate range_example_series =
      some (List.zipWith (fun p q => p && q) [true, false, false] [false, false, false]) ∧
    (List.zipWith (fun p q => p && q) [true, false, false] [false, false, false])[0]? =
      some (true && false) ∧
    (SeriesValidation.CombinedValidation (.InRangeValidation (.fin 0) (.fin 10) none)
        fails_all .or_).validate range_example_series =
      some (List.zipWith (fun p q => p || q) [true, false, false] [false, false, false]) ∧
    (List.zipWith (fun p q => p || q) [true, false, false] [false, false, false])[0]? =
      some (true || false) :=
  combined_validate_elementwise (.InRangeValidation (.fin 0) (.fin 10) none) fails_all
    range_example_series [true, false, false] [false, false, false] 0 true false
    (by decide) (by decide) (by decide) (by decide)

/-- C3 (refuted in part): any exception raised by the user callable on a
single element is caught inside `can_call` and becomes `mask = false` at
that position only (the same `validate` serves `CanConvertValidation`), and
on an `allow_empty = false` column no exception escapes `get_errors`: the
raise-on-`3` callable over `[1, 2, 3]` yields exactly one warning, for the
row holding `3`.  But on an `allow_empty = true` column the `AttributeError`
of the `series.unicode` expression does escape `get_errors`, so the claim's
`no exception escapes get_errors` fails there. -/
theorem can_call_catches_exceptions (obj : PyObj) (c : Option String) (s : Series)
    (i : Nat) (v : PyValue) (hv : s.values[i]? = some v) :
    (SeriesValidation.CanCallValidation obj c).validate s =
        some (s.values.map (can_call obj)) ∧
    (SeriesValidation.CanConvertValidation obj c).validate s =
        some (s.values.map (can_call obj)) ∧
    ((s.values.map (can_call obj))[i]? = some false ↔ obj.call v = .error ()) ∧
    ((SeriesValidation.CanCallValidation obj c).get_errors s ⟨false⟩).isOk = true ∧
    (SeriesValidation.CanCallValidation raise_on_three none).get_errors
        one_two_three_series ⟨false⟩ =
      .ok [⟨some "raised an exception when the callable f was called on it",
        some (.int 3), some 2, some "c"⟩] ∧
    (SeriesValidation.CanCallValidation raise_on_three none).get_errors
        one_two_three_series ⟨true⟩ = .error .AttributeError := by
  refine ⟨rfl, rfl, ?_, rfl, by decide, by decide⟩
  rw [List.getElem?_map, hv]
  cases hc : obj.call v <;> simp [can_call, hc]

/-- Witness for C3 at the raise-on-three callable over `[1, 2, 3]`. -/
theorem can_call_catches_exceptions_witness :
    (SeriesValidation.CanCallValidation raise_on_three none).validate
        one_two_three_series =
      some (one_two_three_series.values.map (can_call raise_on_three)) ∧
    (SeriesValidation.CanConvertValidation raise_on_three none).validate
        one_two_three_series =
      some (one_two_three_series.values.map (can_call raise_on_three)) ∧
    ((one_two_three_series.values.map (can_call raise_on_three))[2]? = some false ↔
      raise_on_three.call (.int 3) = .error ()) ∧
    ((SeriesValidation.CanCallValidation raise_on_three none).get_errors
        one_two_three_series ⟨false⟩).isOk = true ∧
    (SeriesValidation.CanCallValidation raise_on_three none).get_errors
        one_two_three_series ⟨false⟩ =
      .ok [⟨some "raised an exception when the callable f was called on it",
        some (.int 3), some 2, some "c"⟩] ∧
    (SeriesValidation.CanCallValidation raise_on_three none).get_errors
        one_two_three_series ⟨true⟩ = .error .AttributeError :=
  can_call_catches_exceptions raise_on_three none one_two_three_series 2
    (.int 3) (by decide)

/-- C8: an element of a coercible column passes `InRangeValidation(min, max)`
iff `min <= v < max` (min inclusive, max exclusive); the default bounds
`-inf` / `inf` pass everything; and `Range(min=0, max=10)` on `[5, 15, -3]`
warns exactly for the rows holding `15` and `-3`, with message
`was not in the range [0, 10)`. -/
theorem inrange_pass_iff (mn mx : Int) (c : Option String) (s : Series)
    (ns : List Int) (i : Nat) (n : Int)
    (h1 : to_numeric_list s.values = some ns) (h2 : ns[i]? = some n) :
    ((SeriesValidation.InRangeValidation (.fin mn) (.fin mx) c).validate s =
        some (ns.map fun k => (ExtInt.fin mn).leB k && (ExtInt.fin mx).gtB k) ∧
      ((ns.map fun k => (ExtInt.fin mn).leB k && (ExtInt.fin mx).gtB k)[i]? =
          some true ↔ mn ≤ n ∧ n < mx)) ∧
    ((SeriesValidation.InRangeValidation .negInf .posInf c).validate s =
        some (ns.map fun k => ExtInt.negInf.leB k && ExtInt.posInf.gtB k) ∧
      (ns.map fun k => ExtInt.negInf.leB k && ExtInt.posInf.gtB k)[i]? = some true) ∧
    (SeriesValidation.InRangeValidation (.fin 0) (.fin 10) none).get_errors
        range_example_series ⟨false⟩ =
      .ok [⟨some "was not in the range [0, 10)", some (.int 15), some 1, some "c"⟩,
        ⟨some "was not in the range [0, 10)", some (.int (-3)), some 2, some "c"⟩] := by
  refine ⟨⟨?_, ?_⟩, ⟨?_, ?_⟩, by decide⟩
  · simp [SeriesValidation.validate, h1]
  · rw [List.getElem?_map, h2]
    simp [ExtInt.leB, ExtInt.gtB]
  · simp [SeriesValidation.validate, h1]
  · rw [List.getElem?_map, h2]
    simp [ExtInt.leB, ExtInt.gtB]

/-- Witness for C8 at `Range(min=0, max=10)` on `[5, 15, -3]`, row 1. -/
theorem inrange_pass_iff_witness :
    ((SeriesValidation.InRangeValidation (.fin 0) (.fin 10) none).validate
        range_example_series =
      some (([5, 15, -3] : List Int).map fun k =>
        (ExtInt.fin 0).leB k && (ExtInt.fin 10).gtB k) ∧
      ((([5, 15, -3] : List Int).map fun k =>
          (ExtInt.fin 0).leB k && (ExtInt.fin 10).gtB k)[1]? = some true ↔
        (0 : Int) ≤ 15 ∧ (15 : Int) < 10)) ∧
    ((SeriesValidation.InRangeValidation .negInf .posInf none).validate
        range_example_series =
      some (([5, 15, -3] : List Int).map fun k =>
        ExtInt.negInf.leB k && ExtInt.posInf.gtB k) ∧
      (([5, 15, -3] : List Int).map fun k =>
        ExtInt.negInf.leB k && ExtInt.posInf.gtB k)[1]? = some true) ∧
    (SeriesValidation.InRangeValidation (.fin 0) (.fin 10) none).get_errors
        range_example_series ⟨false⟩ =
      .ok [⟨some "was not in the range [0, 10)", some (.int 15), some 1, some "c"⟩,
        ⟨some "was not in the range [0, 10)", some (.int (-3)), some 2, some "c"⟩] :=
  inrange_pass_iff 0 10 none range_example_series [5, 15, -3] 1 15 (by decide) (by decide)

/-- C9 counterexample: the default message of a conjunction interpolates the
operator function object, not the symbol `AND`, so it is not
`(A) AND (B)` for rules with messages `A` and `B`. -/
theorem combined_message_not_op_symbol :
    (SeriesValidation.CombinedValidation (.CustomElementValidation (fun _ => true) "A")
      (.CustomElementValidation (fun _ => true) "B") .and_).default_message ≠
      some "(A) AND (B)" := by
  decide

/-- C9 amended: the default message of a combinator is
`( + a.message + ) + f + ( + b.message + )` where `f` is Python's rendering
of the operator function object — `<built-in function and_>` for `&` and
`<built-in function or_>` for `|` — rather than a symbolic `AND`/`OR`. -/
theorem combined_default_message_format (a b : SeriesValidation) (op : Op) :
    (SeriesValidation.CombinedValidation a b op).default_message =
      some ("(" ++ fmtOpt a.message ++ ") " ++ op.pyFormat ++ " (" ++
        fmtOpt b.message ++ ")") ∧
    Op.pyFormat .and_ = "<built-in function and_>" ∧
    Op.pyFormat .or_ = "<built-in function or_>" :=
  ⟨rfl, rfl, rfl⟩

/-- C10: the `message` property equals the custom message exactly when that
message is a non-empty string; an absent (`None`) or empty custom message
falls back to `default_message` — selection is by Python truthiness. -/
theorem message_truthy_override (v : SeriesValidation) :
    (∀ s : String, v.custom_message = some s → s ≠ "" → v.message = some s) ∧
    (v.custom_message = none ∨ v.custom_message = some "" →
      v.message = v.default_message) := by
  constructor
  · intro s hs hne
    simp [SeriesValidation.message, pyOr, hs, hne]
  · rintro (h | h) <;> simp [SeriesValidation.message, pyOr, h]

/-- Witness for C10: a non-empty custom message wins; an empty one falls
back to the default. -/
theorem message_truthy_override_witness :
    (SeriesValidation.InRangeValidation (.fin 0) (.fin 10) (some "custom")).message =
        some "custom" ∧
    (SeriesValidation.InRangeValidation (.fin 0) (.fin 10) (some "")).message =
      (SeriesValidation.InRangeValidation (.fin 0) (.fin 10) (some "")).default_message :=
  ⟨(message_truthy_override _).1 "custom" rfl (by decide),
   (message_truthy_override _).2 (Or.inr rfl)⟩

end PandasSchema
